import Mathlib

set_option maxHeartbeats 1000000

namespace AutoMonitor

/-! Shallow embedding of src/AutoMonitor.py.  Python strings are Lean
Strings, parsed JSON documents are the Json type below, the three config
files (primary, .safe, .bak) are an explicit file-system record, and the
process table is a list of (pid, command line) pairs.  Numeric JSON
literals are modelled as integers (no floats occur in the claims). -/

/-- Substring occurrence test on character lists: true when pat occurs
contiguously inside hay.  Mirrors the Python expression pat in hay on
strings (an empty pat always matches). -/
def hasSub (pat : List Char) : List Char → Bool
  | [] => pat.isEmpty
  | c :: rest => pat.isPrefixOf (c :: rest) || hasSub pat rest

/-- Python membership test pat in hay for strings. -/
def strContains (hay pat : String) : Bool := hasSub pat.data hay.data

/-- Characters after the last slash, i.e. os.path.basename for POSIX
paths (empty when the path ends in a slash). -/
def basenameChars (cs : List Char) : List Char :=
  (cs.reverse.takeWhile (fun c => c != '/')).reverse

/-- os.path.basename restricted to POSIX separators, as used at
AutoMonitor.py line 165. -/
def basename (s : String) : String := String.mk (basenameChars s.data)

/-! Parsed JSON values (the result of json.load).  Python bool is a
subclass of int, which matters for the isinstance checks in
validate_config; the model keeps bool as a separate constructor and the
isinstance helpers below account for the subclass relation. -/

inductive Json where
  | null : Json
  | bool (b : Bool) : Json
  | int (n : Int) : Json
  | str (s : String) : Json
  | arr (vs : List Json) : Json
  | obj (kvs : List (String × Json)) : Json
/-- A parsed top-level configuration document: a Python dict with string
keys (json.load collapses duplicate keys, so keys are unique). -/
abbrev Doc := List (String × Json)

/-- Python dict key lookup d[k] / k in d. -/
def jlookup (d : Doc) (k : String) : Option Json :=
  (d.find? (fun kv => kv.1 == k)).map (fun kv => kv.2)

/-- Python isinstance(x, int); True for bools since bool subclasses int. -/
def pyIsInstInt : Json → Bool
  | .int _ => true
  | .bool _ => true
  | _ => false

/-- Python isinstance(x, str). -/
def pyIsInstStr : Json → Bool
  | .str _ => true
  | _ => false

/-- Python isinstance(x, list). -/
def pyIsInstList : Json → Bool
  | .arr _ => true
  | _ => false

/-! validate_config (AutoMonitor.py lines 51-75).  The Python function
returns a pair (bool, message); it can also raise TypeError when a
PROJECTS element is neither a dict, a string nor a list (the expression
"local_path" not in project), so the model returns Except Unit
(Bool × String) with .error () standing for that exception. -/

def required_keys : List String := ["GUILD_ID", "TOKEN", "AUTHORIZED_LIST", "PROJECTS"]

/-- Message for a missing required key (line 57). -/
def msgMissingKey (k : String) : String :=
  "必須キー \x27" ++ k ++ "\x27 がありません"

/-- Message for a mistyped GUILD_ID (line 60). -/
def msgGuildId : String := "GUILD_ID は整数である必要があります"

/-- Message for an invalid TOKEN (line 63). -/
def msgToken : String := "TOKEN が無効です"

/-- Message for a mistyped AUTHORIZED_LIST (line 66). -/
def msgAuth : String := "AUTHORIZED_LIST はリストである必要があります"

/-- Message for a mistyped PROJECTS (line 69). -/
def msgProjects : String := "PROJECTS はリストである必要があります"

/-- Message for a project entry without local_path (line 73). -/
def msgProjPath (i : Nat) : String :=
  "PROJECTS[" ++ toString i ++ "] に \x27local_path\x27 がありません"

/-- First key of ks that is absent from d (the loop at lines 55-57). -/
def firstMissing : List String → Doc → Option String
  | [], _ => none
  | k :: ks, d => if (jlookup d k).isSome then firstMissing ks d else some k

/-- Python expression "local_path" not in project, negated: membership in
a dict looks at keys, in a string it is a substring test, in a list it
compares elements with ==; on other values it raises TypeError. -/
def pyContainsLocalPath : Json → Except Unit Bool
  | .obj kvs => .ok ((kvs.find? (fun kv => kv.1 == "local_path")).isSome)
  | .str s => .ok (strContains s "local_path")
  | .arr vs => .ok (vs.any (fun v => match v with
      | .str s => s == "local_path"
      | _ => false))
  | _ => .error ()

/-- Loop over PROJECTS entries (lines 71-73): first index whose entry
lacks local_path yields the corresponding message. -/
def checkProjects (i : Nat) : List Json → Except Unit (Option String)
  | [] => .ok none
  | p :: rest =>
    match pyContainsLocalPath p with
    | .error e => .error e
    | .ok true => checkProjects (i + 1) rest
    | .ok false => .ok (some (msgProjPath i))

/-- TOKEN check at line 62: isinstance(str) and len at least 50. -/
def tokenOk : Json → Bool
  | .str s => decide (50 ≤ s.length)
  | _ => false

/-- validate_config (lines 51-75): presence of all four required keys
first, in order, then the four type checks in order, then the per-project
local_path presence loop; .ok (true, "OK") on success. -/
def validate_config (d : Doc) : Except Unit (Bool × String) :=
  match firstMissing required_keys d with
  | some k => .ok (false, msgMissingKey k)
  | none =>
    if ! pyIsInstInt ((jlookup d "GUILD_ID").getD .null) then .ok (false, msgGuildId)
    else if ! tokenOk ((jlookup d "TOKEN").getD .null) then .ok (false, msgToken)
    else if ! pyIsInstList ((jlookup d "AUTHORIZED_LIST").getD .null) then .ok (false, msgAuth)
    else
      match (jlookup d "PROJECTS").getD .null with
      | .arr vs =>
        match checkProjects 0 vs with
        | .error e => .error e
        | .ok (some m) => .ok (false, m)
        | .ok none => .ok (true, "OK")
      | _ => .ok (false, msgProjects)

/-- Validation success as a boolean, the way load_config_safely consumes
it (a raised TypeError is caught by the surrounding try and counts as
failure there). -/
def validOk (d : Doc) : Bool :=
  match validate_config d with
  | .ok (true, _) => true
  | _ => false

/-- Modelled from the spec: the check order stated in spec section 4.1
for validate, interleaving presence and type per key — GUILD_ID presence
then type, TOKEN presence then type and length, AUTHORIZED_LIST presence
then type, PROJECTS presence then type, then the per-project local_path
presence.  Kept separate from validate_config (translated from the code)
so the two orders can be compared. -/
def validateSpecOrder (d : Doc) : Except Unit (Bool × String) :=
  match jlookup d "GUILD_ID" with
  | none => .ok (false, msgMissingKey "GUILD_ID")
  | some g =>
    if ! pyIsInstInt g then .ok (false, msgGuildId)
    else
      match jlookup d "TOKEN" with
      | none => .ok (false, msgMissingKey "TOKEN")
      | some t =>
        if ! tokenOk t then .ok (false, msgToken)
        else
          match jlookup d "AUTHORIZED_LIST" with
          | none => .ok (false, msgMissingKey "AUTHORIZED_LIST")
          | some a =>
            if ! pyIsInstList a then .ok (false, msgAuth)
            else
              match jlookup d "PROJECTS" with
              | none => .ok (false, msgMissingKey "PROJECTS")
              | some pj =>
                match pj with
                | .arr vs =>
                  match checkProjects 0 vs with
                  | .error e => .error e
                  | .ok (some m) => .ok (false, m)
                  | .ok none => .ok (true, "OK")
                | _ => .ok (false, msgProjects)

/-! ConfigStore file model.  The three config files plus the .tmp file
used by set_config; a file is either absent (none), present with content
that json.load rejects or that is not a top-level dict (Content.invalid),
or present with a parsed document (Content.doc). Every write the Python
code performs is recorded as a FileOp event, and the final state of the
file system is obtained by applying the recorded trace. -/

inductive Content where
  | invalid : Content
  | doc (d : Doc) : Content

inductive FileId where
  | primary : FileId
  | safe : FileId
  | bak : FileId
  | tmp : FileId
deriving DecidableEq

structure FS where
  primary : Option Content
  safe : Option Content
  bak : Option Content
  tmp : Option Content

/-- Content of one file. -/
def FS.get (fs : FS) : FileId → Option Content
  | .primary => fs.primary
  | .safe => fs.safe
  | .bak => fs.bak
  | .tmp => fs.tmp

/-- Replace the content of one file. -/
def FS.set (fs : FS) : FileId → Option Content → FS
  | .primary, c => { fs with primary := c }
  | .safe, c => { fs with safe := c }
  | .bak, c => { fs with bak := c }
  | .tmp, c => { fs with tmp := c }

/-- File-system operations the Python code performs: an open-for-write
plus dump/write (write), an os.replace (rename: the destination takes
the source content and the source disappears), and an os.remove. -/
inductive FileOp where
  | write (f : FileId) (c : Content) : FileOp
  | rename (src dst : FileId) : FileOp
  | remove (f : FileId) : FileOp

def applyOp (fs : FS) : FileOp → FS
  | .write f c => fs.set f (some c)
  | .rename src dst =>
    match fs.get src with
    | some c => (fs.set dst (some c)).set src none
    | none => fs
  | .remove f => fs.set f none

def applyTrace (fs : FS) : List FileOp → FS
  | [] => fs
  | op :: ops => applyTrace (applyOp fs op) ops

/-- Whether an operation touches a given file at all. -/
def opTouches (f : FileId) : FileOp → Bool
  | .write g _ => g == f
  | .rename src dst => src == f || dst == f
  | .remove g => g == f

/-- Whether an operation is an os.replace (rename). -/
def isRename : FileOp → Bool
  | .rename _ _ => true
  | _ => false

/-- A tier yields a usable candidate when its file exists, parses to a
dict, and passes validate_config (the backup loop at lines 97-112: a
missing file is skipped, a parse error or TypeError is caught and
skipped, a validation failure is skipped). -/
def tierDoc : Option Content → Option Doc
  | some (.doc d) => if validOk d then some d else none
  | _ => none

inductive LoadResult where
  | ok (d : Doc) : LoadResult
  | configUnavailable : LoadResult

/-- Backup cascade of load_config_safely (lines 93-114): .safe first,
then .bak; the first candidate that parses and validates is written
directly to the primary path (lines 107-108, a plain open(...,"w") plus
json.dump, no temp file and no rename) and returned; nothing else is
written.  When both fail the RuntimeError at line 114 is raised. -/
def loadBackups (fs : FS) : LoadResult × List FileOp :=
  match tierDoc fs.safe with
  | some d => (.ok d, [.write .primary (.doc d)])
  | none =>
    match tierDoc fs.bak with
    | some d => (.ok d, [.write .primary (.doc d)])
    | none => (.configUnavailable, [])

/-- load_config_safely (lines 77-114).  On the happy path (primary
parses and validates) the document is re-serialized to the .safe backup
(lines 88-89) and returned; on any failure the backup cascade runs. -/
def load_config_safely (fs : FS) : LoadResult × List FileOp :=
  match fs.primary with
  | some (.doc d) =>
    if validOk d then (.ok d, [.write .safe (.doc d)])
    else loadBackups fs
  | _ => loadBackups fs

/-! set_config command (AutoMonitor.py lines 327-382), the reloadConfig
operation of the spec.  The uploaded attachment is saved to the .tmp
file, parsed, validated, and only then swapped in: the current primary
is copied byte-for-byte to .safe (lines 361-364), the primary is renamed
to .bak (line 366) and the .tmp file is renamed to primary (line 369).
On a parse or validation failure the .tmp file is removed and nothing
else is touched. -/

inductive SetResult where
  | accepted : SetResult
  | rejectedParse : SetResult
  | rejectedInvalid (msg : String) : SetResult
  | rejectedError : SetResult

def set_config_command (fs : FS) (upload : Content) : SetResult × List FileOp :=
  let saveOp : List FileOp := [.write .tmp upload]
  match upload with
  | .invalid => (.rejectedParse, saveOp ++ [.remove .tmp])
  | .doc newConfig =>
    match validate_config newConfig with
    | .error _ => (.rejectedError, saveOp ++ [.remove .tmp])
    | .ok (false, msg) => (.rejectedInvalid msg, saveOp ++ [.remove .tmp])
    | .ok (true, _) =>
      let backupOps : List FileOp :=
        match fs.primary with
        | some c => [.write .safe c, .rename .primary .bak]
        | none => []
      (.accepted, saveOp ++ backupOps ++ [.rename .tmp .primary])

/-! LaunchSpecResolver: the module-level args substitution at
AutoMonitor.py lines 134-143.  Each token of a project args list is
replaced by project[arg] when the project dict has that key, otherwise
by globals().get(arg, arg) — the module-level variables of the script,
not the configuration document — and a dict value is serialized with
json.dumps(value, ensure_ascii=False). -/

mutual

/-- Python repr of a JSON-shaped value (string quoting uses single
quotes; escaping of special characters inside strings is elided, no
claim exercises it). -/
def pyReprJ : Json → String
  | .null => "None"
  | .bool b => if b then "True" else "False"
  | .int n => toString n
  | .str s => "\x27" ++ s ++ "\x27"
  | .arr vs => "[" ++ pyReprList vs ++ "]"
  | .obj kvs => "\x7b" ++ pyReprObj kvs ++ "\x7d"

def pyReprList : List Json → String
  | [] => ""
  | [v] => pyReprJ v
  | v :: w :: rest => pyReprJ v ++ ", " ++ pyReprList (w :: rest)

def pyReprObj : List (String × Json) → String
  | [] => ""
  | [(k, v)] => pyReprJ (.str k) ++ ": " ++ pyReprJ v
  | (k, v) :: kv :: rest => pyReprJ (.str k) ++ ": " ++ pyReprJ v ++ ", " ++ pyReprObj (kv :: rest)

end

/-- Python str() of a JSON-shaped value: bare text for strings, repr
for everything else. -/
def pyStrJ : Json → String
  | .str s => s
  | j => pyReprJ j

/-- Escape for json.dumps string output (backslash and double quote;
control-character escapes elided, no claim exercises them). -/
def jsonEscapeChar (c : Char) : String :=
  if c = '"' then "\\\"" else if c = '\\' then "\\\\" else String.singleton c

def jsonEscape (s : String) : String := String.join (s.data.map jsonEscapeChar)

mutual

/-- json.dumps(value, ensure_ascii=False): single-line output with the
default separators, a comma plus space between items and a colon plus
space after keys. -/
def jsonDumps : Json → String
  | .null => "null"
  | .bool b => if b then "true" else "false"
  | .int n => toString n
  | .str s => "\"" ++ jsonEscape s ++ "\""
  | .arr vs => "[" ++ jsonDumpsList vs ++ "]"
  | .obj kvs => "\x7b" ++ jsonDumpsObj kvs ++ "\x7d"

def jsonDumpsList : List Json → String
  | [] => ""
  | [v] => jsonDumps v
  | v :: w :: rest => jsonDumps v ++ ", " ++ jsonDumpsList (w :: rest)

def jsonDumpsObj : List (String × Json) → String
  | [] => ""
  | [(k, v)] => "\"" ++ jsonEscape k ++ "\": " ++ jsonDumps v
  | (k, v) :: kv :: rest =>
    "\"" ++ jsonEscape k ++ "\": " ++ jsonDumps v ++ ", " ++ jsonDumpsObj (kv :: rest)

end

/-- A value held by a module-level Python variable: either a JSON-shaped
value or an opaque Python object (module, function, handler, or a
loop variable whose transient value the model does not track). -/
inductive GVal where
  | json (j : Json) : GVal
  | pyObj (name : String) : GVal

/-- Names bound at module level of AutoMonitor.py when the args loop at
lines 134-143 runs: the imports (lines 1-22), the module constants and
helpers (lines 33-131), and the loop variables already assigned.  Needed
only for its complement: a name outside this list is not a global, so
globals().get(name, name) falls back to the token itself. -/
def moduleGlobalNames : List String :=
  ["io", "json", "logging", "os", "re", "subprocess", "sys", "threading",
   "time", "traceback", "urllib", "psutil", "unified_diff", "urlopen",
   "RotatingFileHandler", "discord", "commands", "app_commands", "DiscordFile",
   "Any", "Dict", "List", "Optional",
   "SCRIPT_DIR", "LOG_DIR", "log_file_path", "log_handler",
   "AUTOMONITOR_GITHUB_PATH", "AUTOMONITOR_LOCAL_PATH",
   "CONFIG_PATH", "CONFIG_BACKUP_PATH", "CONFIG_SAFE_BACKUP_PATH",
   "validate_config", "load_config_safely", "config",
   "CHECK_INTERVAL", "GUILD_ID", "TOKEN", "AUTHORIZED_LIST", "PROJECTS",
   "p", "proj", "project", "new_args", "arg", "value",
   "__name__", "__file__", "__doc__", "__builtins__", "__spec__",
   "__loader__", "__package__", "__annotations__"]

/-- The globals() mapping seen by the args loop, given the loaded
configuration document.  The four config-derived bindings of lines
119-122 and the config dict itself (line 117) carry their JSON values;
every other module-level name is an opaque Python object; names not
bound at module level are absent. -/
def moduleGlobals (cfg : Doc) (n : String) : Option GVal :=
  if n = "GUILD_ID" then (jlookup cfg "GUILD_ID").map .json
  else if n = "TOKEN" then (jlookup cfg "TOKEN").map .json
  else if n = "AUTHORIZED_LIST" then (jlookup cfg "AUTHORIZED_LIST").map .json
  else if n = "CHECK_INTERVAL" then some (.json ((jlookup cfg "CHECK_INTERVAL").getD (.int 60)))
  else if n = "config" then some (.json (.obj cfg))
  else if moduleGlobalNames.contains n then some (.pyObj n)
  else none

/-- Resolution of one args token (line 138): the project dict takes
priority, then globals().get(arg, arg) with the token itself as the
default. -/
def resolveArgToken (project : Doc) (g : String → Option GVal) (tok : String) : GVal :=
  match jlookup project tok with
  | some j => .json j
  | none => (g tok).getD (.json (.str tok))

/-- Lines 140-141: a dict value is replaced by its json.dumps encoding
before being appended to new_args. -/
def encodeIfDict : GVal → GVal
  | .json (.obj kvs) => .json (.str (jsonDumps (.obj kvs)))
  | v => v

/-- One fully processed args entry (lines 138-142). -/
def resolveEncoded (project : Doc) (g : String → Option GVal) (tok : String) : GVal :=
  encodeIfDict (resolveArgToken project g tok)

/-- Modelled from the spec: the resolution rule of spec section 4.2
items 3 and 4, which consults (a) a same-named field on the project,
then (b) a same-named field in the global configuration document, and
(c) otherwise passes the token through literally, encoding a mapping
value as JSON.  Kept separate from resolveEncoded (the code) so the two
can be compared. -/
def resolveSpecEncoded (project cfg : Doc) (tok : String) : GVal :=
  encodeIfDict (match jlookup project tok with
    | some j => .json j
    | none =>
      match jlookup cfg tok with
      | some j => .json j
      | none => .json (.str tok))

/-! ProcessSupervisor: monitor_scripts (lines 184-240),
kill_existing_process (lines 163-182) and the reboot command
(lines 559-590).  The OS process table is a list of live processes;
model time is a Nat second counter that advances only at the cooldown
sleep. -/

/-- One live OS process as psutil exposes it: pid and command line. -/
structure Proc where
  pid : Nat
  cmdline : List String

/-- One slot managed by the monitor loop: the Popen handle (modelled by
the child pid) and the last restart timestamp (0 initially, line 187). -/
structure Slot where
  handle : Option Nat
  lastRestart : Nat

/-- Whether a command line references the script (line 174): any
argument containing the script name as a substring. -/
def procMatches (script_name : String) (pr : Proc) : Bool :=
  pr.cmdline.any (fun a => strContains a script_name)

/-- kill_existing_process (lines 163-182): every process whose command
line mentions basename(script_path), except the supervisor process
itself, is terminated (grace then kill) and leaves the table. -/
def kill_existing_process (selfPid : Nat) (script_path : String) (table : List Proc) : List Proc :=
  table.filter (fun pr => pr.pid == selfPid || ! procMatches (basename script_path) pr)

/-- Condition of line 199: no handle yet, or poll() shows the child has
exited — modelled as the pid no longer being in the live table. -/
def slotDead (table : List Proc) (s : Slot) : Bool :=
  match s.handle with
  | none => true
  | some pid => ! table.any (fun pr => pr.pid == pid)

/-- Observable events of one slot handling, in program order. -/
inductive Ev where
  | wait (sec : Nat) : Ev
  | killScan (path : String) : Ev
  | termStale (pid : Nat) : Ev
  | spawn (args : List String) (t : Nat) : Ev

def isSpawn : Ev → Bool
  | .spawn _ _ => true
  | _ => false

def isWait : Ev → Bool
  | .wait _ => true
  | _ => false

/-- Spawn time of an event, when it has one. -/
def evTime : Ev → Option Nat
  | .spawn _ t => some t
  | _ => none

def RESTART_COOLDOWN : Nat := 30

/-- The monitor command line for a project (lines 195-197 and 579-581):
interpreter, script path, then the rendered args — str(a) for a
non-list, ",".join(map(str, a)) for a list. -/
def renderArg : GVal → String
  | .json (.arr vs) => String.intercalate "," (vs.map pyStrJ)
  | .json j => pyStrJ j
  | .pyObj n => "<pyobj " ++ n ++ ">"

/-- One project after module-level processing: derived name (file stem),
absolute local_path, resolved args (empty when the key is absent, which
the code treats identically via the truthiness test). -/
structure Project where
  name : String
  local_path : String
  args : List GVal

def spawnArgs (p : Project) : List String :=
  "python" :: p.local_path :: p.args.map renderArg

/-- Result of handling one slot inside the poll loop. -/
structure StepOut where
  slot : Slot
  table : List Proc
  now : Nat
  evs : List Ev

/-- One slot handling inside the poll cycle (lines 199-225): when the
slot is dead, first wait out the cooldown remainder (lines 204-207, a
synchronous time.sleep that advances the shared clock), then
kill_existing_process (line 210), then terminate a stale handle (lines
212-221), then spawn and stamp lastRestart (lines 224-225).  A live
slot is untouched. -/
def handleSlot (selfPid newPid : Nat) (p : Project) (s : Slot) (table : List Proc)
    (now : Nat) : StepOut :=
  if slotDead table s then
    let elapsed := now - s.lastRestart
    let waited : Nat × List Ev :=
      if elapsed < RESTART_COOLDOWN then
        (now + (RESTART_COOLDOWN - elapsed), [Ev.wait (RESTART_COOLDOWN - elapsed)])
      else (now, [])
    let now1 := waited.1
    let table1 := kill_existing_process selfPid p.local_path table
    let staled : List Proc × List Ev :=
      match s.handle with
      | some pid => (table1.filter (fun pr => pr.pid != pid), [Ev.termStale pid])
      | none => (table1, [])
    let args := spawnArgs p
    ⟨⟨some newPid, now1⟩, staled.1 ++ [⟨newPid, args⟩], now1,
      waited.2 ++ [Ev.killScan p.local_path] ++ staled.2 ++ [Ev.spawn args now1]⟩
  else ⟨s, table, now, []⟩

/-- Result of one whole poll cycle. -/
structure CycleOut where
  slots : List Slot
  table : List Proc
  now : Nat
  evs : List Ev

/-- One pass of the for loop at line 192 over all projects: the shared
clock and the process table are threaded through the slots in order, so
a cooldown sleep for one slot delays the handling of every later slot. -/
def monitorCycle (selfPid : Nat) : List (Project × Slot × Nat) → List Proc → Nat → CycleOut
  | [], table, now => ⟨[], table, now, []⟩
  | (p, s, newPid) :: rest, table, now =>
    let o := handleSlot selfPid newPid p s table now
    let r := monitorCycle selfPid rest o.table o.now
    ⟨o.slot :: r.slots, r.table, r.now, o.evs ++ r.evs⟩

/-- The reboot command (lines 559-590), the restartOne operation: after
the membership check at line 573, the first project with the requested
name is spawned immediately (line 582) — no cooldown wait, no duplicate
scan, no stale-handle termination, no lock, and no slot bookkeeping.
Returns the new table, the events, and whether the name was found. -/
def reboot_command (projects : List Project) (name : String) (table : List Proc)
    (newPid : Nat) (now : Nat) : List Proc × List Ev × Bool :=
  if (projects.map Project.name).contains name then
    match projects.find? (fun p => p.name == name) with
    | some p => (table ++ [⟨newPid, spawnArgs p⟩], [Ev.spawn (spawnArgs p) now], true)
    | none => (table, [], false)
  else (table, [], false)

/-! Concrete sample data used by witnesses and counterexamples. -/

/-- A 50-character TOKEN value (the minimum length validate accepts). -/
def sampleToken : String :=
  "xxxxxxxxxxxxxxxxxxxxxxxxxxxxxxxxxxxxxxxxxxxxxxxxxx"

/-- A configuration document that validates. -/
def sampleDoc : Doc :=
  [("GUILD_ID", .int 123), ("TOKEN", .str sampleToken),
   ("AUTHORIZED_LIST", .arr [.int 1]),
   ("PROJECTS", .arr [.obj [("local_path", .str "worker.py")]])]

/-- A document with a mistyped GUILD_ID and a missing TOKEN, which
separates the two candidate check orders of validate. -/
def specOrderDoc : Doc :=
  [("GUILD_ID", .str "x"), ("AUTHORIZED_LIST", .arr []), ("PROJECTS", .arr [])]

/-- A document that validates although its only project has an empty
local_path. -/
def emptyPathDoc : Doc :=
  [("GUILD_ID", .int 123), ("TOKEN", .str sampleToken),
   ("AUTHORIZED_LIST", .arr [.int 1]),
   ("PROJECTS", .arr [.obj [("local_path", .str "")]])]

/-- sampleDoc extended with a passthrough field that is not mirrored in
any module-level variable. -/
def extraDoc : Doc := sampleDoc ++ [("MY_SETTING", .int 5)]

/-- A minimal project dict for resolution tests. -/
def bareProject : Doc := [("local_path", .str "worker.py")]

/-- A processed project slot for supervisor tests. -/
def workerProject : Project := ⟨"worker", "/base/worker.py", []⟩

/-- The supervisor process itself, whose command line does not mention
the worker script. -/
def supervisorProc : Proc := ⟨1, ["python", "/base/AutoMonitor.py"]⟩

/-- File system with an invalid primary, an invalid .safe and a valid
.bak document. -/
def fsBakOnly : FS := ⟨some .invalid, some .invalid, some (.doc sampleDoc), none⟩

/-- File system with an invalid primary and a valid .safe document. -/
def fsSafeOnly : FS := ⟨some .invalid, some (.doc sampleDoc), none, none⟩

/-- File system where every tier is unusable. -/
def fsAllBad : FS := ⟨some .invalid, some .invalid, none, none⟩

/-- File system with a valid primary document. -/
def fsGoodPrimary : FS := ⟨some (.doc sampleDoc), some .invalid, some .invalid, none⟩

/-! Theorems.  General lemmas first, then one theorem per claim (with
its witness or counterexample). -/

/-- A pattern occurs in any character list that ends with it. -/
theorem hasSub_of_append (t a : List Char) : hasSub t (a ++ t) = true := by
  induction a with
  | nil =>
    cases t with
    | nil => rfl
    | cons c cs =>
      simp [hasSub, List.isPrefixOf_iff_prefix]
  | cons c a ih =>
    simp [hasSub, ih]

/-- The basename of a path always occurs in the path itself, hence a
process spawned with the full path is matched by the duplicate scan that
searches for the basename. -/
theorem strContains_basename (s : String) : strContains s (basename s) = true := by
  show hasSub (basenameChars s.data) s.data = true
  have h1 : s.data.reverse.takeWhile (fun c => c != '/') ++
      s.data.reverse.dropWhile (fun c => c != '/') = s.data.reverse :=
    List.takeWhile_append_dropWhile (fun c => c != '/') s.data.reverse
  have h2 := congrArg List.reverse h1
  rw [List.reverse_append, List.reverse_reverse] at h2
  have key : s.data =
      (s.data.reverse.dropWhile (fun c => c != '/')).reverse ++ basenameChars s.data :=
    h2.symm
  have base := hasSub_of_append (basenameChars s.data)
      ((s.data.reverse.dropWhile (fun c => c != '/')).reverse)
  rw [← key] at base
  exact base

example : validate_config [] = .ok (false, msgMissingKey "GUILD_ID") := by rfl

example :
    validate_config specOrderDoc = .ok (false, msgMissingKey "TOKEN") := by rfl

example : validate_config sampleDoc = .ok (true, "OK") := by rfl

/-- An exhausted firstMissing scan means every scanned key is present. -/
theorem firstMissing_none {ks : List String} {d : Doc}
    (h : firstMissing ks d = none) : ∀ k ∈ ks, (jlookup d k).isSome := by
  induction ks with
  | nil => simp
  | cons k ks ih =>
    intro k2 hk2
    by_cases hs : (jlookup d k).isSome
    · rcases List.mem_cons.mp hk2 with rfl | h2
      · exact hs
      · exact ih (by simpa [firstMissing, hs] using h) k2 h2
    · simp [firstMissing, hs] at h

/-- A successful checkProjects scan means every entry contains the
local_path key. -/
theorem checkProjects_ok {vs : List Json} :
    ∀ {i : Nat}, checkProjects i vs = .ok none →
      ∀ v ∈ vs, pyContainsLocalPath v = .ok true := by
  induction vs with
  | nil => simp
  | cons v rest ih =>
    intro i h w hw
    cases hpc : pyContainsLocalPath v with
    | error e => simp [checkProjects, hpc] at h
    | ok b =>
      cases b with
      | false => simp [checkProjects, hpc] at h
      | true =>
        rcases List.mem_cons.mp hw with rfl | hw2
        · exact hpc
        · exact ih (by simpa [checkProjects, hpc] using h) w hw2

/-- Claim C5 counterexample: on a document whose GUILD_ID is mistyped
and whose TOKEN is absent, validate_config reports the missing TOKEN,
while the check order the claim states (GUILD_ID presence and type
first) would report the mistyped GUILD_ID — so validate does not check
in the claimed interleaved order. -/
theorem C5_counterexample :
    validate_config specOrderDoc = .ok (false, msgMissingKey "TOKEN") ∧
    validateSpecOrder specOrderDoc = .ok (false, msgGuildId) ∧
    msgMissingKey "TOKEN" ≠ msgGuildId := by
  refine ⟨rfl, rfl, ?_⟩
  decide

/-- Claim C5 (amended): validate_config first checks the presence of all
four required keys, in the order GUILD_ID, TOKEN, AUTHORIZED_LIST,
PROJECTS, before any type check; in particular a document missing
exactly one of the four required keys is rejected with the failure
message naming that key. -/
theorem C5_amended (d : Doc) (k : String)
    (hk : k ∈ required_keys)
    (hmiss : jlookup d k = none)
    (hothers : ∀ k2 ∈ required_keys, k2 ≠ k → (jlookup d k2).isSome) :
    validate_config d = .ok (false, msgMissingKey k) := by
  have hfm : firstMissing required_keys d = some k := by
    fin_cases hk <;>
      simp_all [firstMissing, required_keys, hmiss]
  unfold validate_config
  rw [hfm]

/-- Claim C5 witness: a document whose only missing required key is
AUTHORIZED_LIST is rejected naming AUTHORIZED_LIST. -/
theorem C5_witness :
    validate_config [("GUILD_ID", Json.int 1), ("TOKEN", Json.str "t"),
        ("PROJECTS", Json.arr [])]
      = .ok (false, msgMissingKey "AUTHORIZED_LIST") :=
  C5_amended _ "AUTHORIZED_LIST" (by simp [required_keys]) rfl (by decide)

/-- Claim C6 counterexample: a document whose only project carries an
empty local_path is accepted by validate_config, although the claim
says such a document is rejected. -/
theorem C6_counterexample :
    validate_config emptyPathDoc = .ok (true, "OK") ∧
    jlookup emptyPathDoc "PROJECTS"
      = some (.arr [.obj [("local_path", .str "")]]) :=
  ⟨rfl, rfl⟩

/-- Claim C6 (amended): validate_config only requires the local_path
key to be present in each PROJECTS entry — every accepted document has
the key in every project, but the value is never inspected, so empty or
non-string values pass. -/
theorem C6_amended (d : Doc) (m : String)
    (h : validate_config d = .ok (true, m)) :
    ∃ vs, jlookup d "PROJECTS" = some (.arr vs) ∧
      ∀ v ∈ vs, pyContainsLocalPath v = .ok true := by
  unfold validate_config at h
  split at h
  · exact absurd h (by simp)
  next hfm =>
    split_ifs at h
    · exact absurd h (by simp)
    · exact absurd h (by simp)
    · exact absurd h (by simp)
    · split at h
      next vs heq =>
        split at h
        · exact absurd h (by simp)
        · exact absurd h (by simp)
        next hcp =>
          have hsome : (jlookup d "PROJECTS").isSome :=
            firstMissing_none hfm "PROJECTS" (by simp [required_keys])
          obtain ⟨pj, hpj⟩ := Option.isSome_iff_exists.mp hsome
          rw [hpj] at heq
          simp only [Option.getD_some] at heq
          rw [heq] at hpj
          exact ⟨vs, hpj, checkProjects_ok hcp⟩
      next heq => exact absurd h (by simp)

/-- Claim C6 witness: the accepted sampleDoc has the local_path key in
each of its projects. -/
theorem C6_witness :
    ∃ vs, jlookup sampleDoc "PROJECTS" = some (.arr vs) ∧
      ∀ v ∈ vs, pyContainsLocalPath v = .ok true :=
  C6_amended sampleDoc "OK" rfl

/-- A failed primary tier sends load_config_safely into the backup
cascade. -/
theorem load_eq_backups (fs : FS) (hp : tierDoc fs.primary = none) :
    load_config_safely fs = loadBackups fs := by
  unfold load_config_safely
  cases hpp : fs.primary with
  | none => rfl
  | some c =>
    cases c with
    | invalid => rfl
    | doc d =>
      rw [hpp] at hp
      cases hvv : validOk d with
      | true => simp [tierDoc, hvv] at hp
      | false => simp [hvv]

/-- Claim C3: when the primary and both backup tiers all fail to parse
or validate, load_config_safely raises the fatal error (the RuntimeError
at line 114, ConfigUnavailable in the spec taxonomy) and performs no
file operation at all, so primary, .safe and .bak are left unmodified. -/
theorem C3_all_tiers_fail (fs : FS)
    (h1 : tierDoc fs.primary = none)
    (h2 : tierDoc fs.safe = none)
    (h3 : tierDoc fs.bak = none) :
    load_config_safely fs = (.configUnavailable, []) ∧
    applyTrace fs (load_config_safely fs).2 = fs := by
  have hl : load_config_safely fs = (.configUnavailable, []) := by
    rw [load_eq_backups fs h1]
    simp [loadBackups, h2, h3]
  exact ⟨hl, by rw [hl]; rfl⟩

/-- Claim C3 witness: a file system with an unparseable primary, an
unparseable .safe and no .bak file at all. -/
theorem C3_witness :
    load_config_safely fsAllBad = (.configUnavailable, []) ∧
    applyTrace fsAllBad (load_config_safely fsAllBad).2 = fsAllBad :=
  C3_all_tiers_fail fsAllBad rfl rfl rfl

/-- Claim C10: a run of load_config_safely whose primary parses and
validates rewrites .safe with the loaded document before returning it,
and leaves primary and .bak untouched — load is not read-only even on
success. -/
theorem C10_success_writes_safe (fs : FS) (d : Doc)
    (hp : fs.primary = some (.doc d)) (hv : validOk d = true) :
    load_config_safely fs = (.ok d, [.write .safe (.doc d)]) ∧
    (applyTrace fs (load_config_safely fs).2).primary = fs.primary ∧
    (applyTrace fs (load_config_safely fs).2).bak = fs.bak ∧
    (applyTrace fs (load_config_safely fs).2).safe = some (.doc d) ∧
    (load_config_safely fs).2 ≠ [] := by
  have hl : load_config_safely fs = (.ok d, [.write .safe (.doc d)]) := by
    unfold load_config_safely
    rw [hp]
    simp [hv]
  refine ⟨hl, ?_, ?_, ?_, ?_⟩ <;>
    rw [hl] <;> simp [applyTrace, applyOp, FS.set]

/-- Claim C10 witness: loading a valid primary rewrites only .safe. -/
theorem C10_witness :
    load_config_safely fsGoodPrimary = (.ok sampleDoc, [.write .safe (.doc sampleDoc)]) ∧
    (applyTrace fsGoodPrimary (load_config_safely fsGoodPrimary).2).primary = fsGoodPrimary.primary ∧
    (applyTrace fsGoodPrimary (load_config_safely fsGoodPrimary).2).bak = fsGoodPrimary.bak ∧
    (applyTrace fsGoodPrimary (load_config_safely fsGoodPrimary).2).safe = some (.doc sampleDoc) ∧
    (load_config_safely fsGoodPrimary).2 ≠ [] :=
  C10_success_writes_safe fsGoodPrimary sampleDoc rfl rfl

/-- Claim C1 counterexample: with an invalid primary, an invalid .safe
and a valid .bak, load_config_safely returns the .bak document but its
whole trace is one direct write of the primary file — no rename ever
occurs (so there is no write-temp-then-rename promotion) and .safe
keeps its invalid content instead of being re-written with the returned
document. -/
theorem C1_counterexample :
    load_config_safely fsBakOnly = (.ok sampleDoc, [.write .primary (.doc sampleDoc)]) ∧
    (load_config_safely fsBakOnly).2.filter isRename = [] ∧
    (applyTrace fsBakOnly (load_config_safely fsBakOnly).2).safe = some .invalid ∧
    some Content.invalid ≠ some (Content.doc sampleDoc) :=
  ⟨rfl, rfl, rfl, fun h => Content.noConfusion (Option.some.inj h)⟩

/-- Claim C1 (amended): when the primary fails to parse or validate and
a backup tier validates (consulting .safe first, then .bak), load
returns that first validating candidate and overwrites the primary path
with one direct write — not a write-temp-then-rename — and does not
re-write .safe: both backup files keep their previous content. -/
theorem C1_amended (fs : FS) (d : Doc) (hp : tierDoc fs.primary = none) :
    (tierDoc fs.safe = some d →
      load_config_safely fs = (.ok d, [.write .primary (.doc d)]) ∧
      (applyTrace fs (load_config_safely fs).2).primary = some (.doc d) ∧
      (applyTrace fs (load_config_safely fs).2).safe = fs.safe ∧
      (applyTrace fs (load_config_safely fs).2).bak = fs.bak) ∧
    (tierDoc fs.safe = none → tierDoc fs.bak = some d →
      load_config_safely fs = (.ok d, [.write .primary (.doc d)]) ∧
      (applyTrace fs (load_config_safely fs).2).primary = some (.doc d) ∧
      (applyTrace fs (load_config_safely fs).2).safe = fs.safe ∧
      (applyTrace fs (load_config_safely fs).2).bak = fs.bak) := by
  constructor
  · intro hs
    have hl : load_config_safely fs = (.ok d, [.write .primary (.doc d)]) := by
      rw [load_eq_backups fs hp]
      simp [loadBackups, hs]
    refine ⟨hl, ?_, ?_, ?_⟩ <;>
      rw [hl] <;> simp [applyTrace, applyOp, FS.set]
  · intro hs hb
    have hl : load_config_safely fs = (.ok d, [.write .primary (.doc d)]) := by
      rw [load_eq_backups fs hp]
      simp [loadBackups, hs, hb]
    refine ⟨hl, ?_, ?_, ?_⟩ <;>
      rw [hl] <;> simp [applyTrace, applyOp, FS.set]

/-- Claim C1 witness: restoring from a valid .safe behind an invalid
primary. -/
theorem C1_witness :
    load_config_safely fsSafeOnly = (.ok sampleDoc, [.write .primary (.doc sampleDoc)]) ∧
    (applyTrace fsSafeOnly (load_config_safely fsSafeOnly).2).primary = some (.doc sampleDoc) ∧
    (applyTrace fsSafeOnly (load_config_safely fsSafeOnly).2).safe = fsSafeOnly.safe ∧
    (applyTrace fsSafeOnly (load_config_safely fsSafeOnly).2).bak = fsSafeOnly.bak :=
  (C1_amended fsSafeOnly sampleDoc rfl).1 rfl

/-- Claim C4: set_config validates the uploaded candidate before any
operation on the primary, .safe or .bak files.  A candidate that fails
parsing or validation is rejected with the reason, its whole trace
touches only the .tmp file, and the three config files end unchanged;
an accepted run rewrites the primary exactly with the validated
uploaded document. -/
theorem C4_validate_before_write (fs : FS) (upload : Content) :
    ((set_config_command fs upload).1 ≠ .accepted →
      ((set_config_command fs upload).2.all
        (fun op => ! (opTouches .primary op || opTouches .safe op || opTouches .bak op))) ∧
      (applyTrace fs (set_config_command fs upload).2).primary = fs.primary ∧
      (applyTrace fs (set_config_command fs upload).2).safe = fs.safe ∧
      (applyTrace fs (set_config_command fs upload).2).bak = fs.bak) ∧
    ((set_config_command fs upload).1 = .accepted →
      ∃ d, upload = .doc d ∧ validOk d = true ∧
        (applyTrace fs (set_config_command fs upload).2).primary = some (.doc d)) := by
  cases upload with
  | invalid =>
    constructor
    · intro _
      refine ⟨rfl, ?_, ?_, ?_⟩ <;>
        simp [set_config_command, applyTrace, applyOp, FS.set]
    · intro h
      exact absurd h (by simp [set_config_command])
  | doc d =>
    cases hv : validate_config d with
    | error e =>
      constructor
      · intro _
        refine ⟨?_, ?_, ?_, ?_⟩ <;>
          simp [set_config_command, hv, opTouches, applyTrace, applyOp, FS.set]
      · intro h
        simp [set_config_command, hv] at h
    | ok bm =>
      obtain ⟨b, m⟩ := bm
      cases b with
      | false =>
        constructor
        · intro _
          refine ⟨?_, ?_, ?_, ?_⟩ <;>
            simp [set_config_command, hv, opTouches, applyTrace, applyOp, FS.set]
        · intro h
          simp [set_config_command, hv] at h
      | true =>
        constructor
        · intro h
          exact absurd (by simp [set_config_command, hv]) h
        · intro _
          refine ⟨d, rfl, by simp [validOk, hv], ?_⟩
          cases hfp : fs.primary with
          | none =>
            simp [set_config_command, hv, hfp, applyTrace, applyOp, FS.set, FS.get]
          | some c =>
            simp [set_config_command, hv, hfp, applyTrace, applyOp, FS.set, FS.get]

/-- Claim C4 witness: an invalid upload is rejected and the three config
files keep their content. -/
theorem C4_witness :
    ((set_config_command fsGoodPrimary Content.invalid).2.all
      (fun op => ! (opTouches .primary op || opTouches .safe op || opTouches .bak op))) ∧
    (applyTrace fsGoodPrimary (set_config_command fsGoodPrimary Content.invalid).2).primary
      = fsGoodPrimary.primary ∧
    (applyTrace fsGoodPrimary (set_config_command fsGoodPrimary Content.invalid).2).safe
      = fsGoodPrimary.safe ∧
    (applyTrace fsGoodPrimary (set_config_command fsGoodPrimary Content.invalid).2).bak
      = fsGoodPrimary.bak :=
  (C4_validate_before_write fsGoodPrimary Content.invalid).1
    (fun h => SetResult.noConfusion h)

/-- Claim C9 counterexample: a passthrough configuration field that is
not mirrored by a module-level variable is not consulted by the token
resolution — the token MY_SETTING resolves to itself literally although
the configuration document maps it to 5, which the claimed rule (b)
would return. -/
theorem C9_counterexample :
    resolveEncoded bareProject (moduleGlobals extraDoc) "MY_SETTING"
      = .json (.str "MY_SETTING") ∧
    resolveSpecEncoded bareProject extraDoc "MY_SETTING" = .json (.int 5) ∧
    Json.str "MY_SETTING" ≠ Json.int 5 :=
  ⟨rfl, rfl, fun h => Json.noConfusion h⟩

/-- Claim C9 (amended): a token resolves to the same-named project field
when present, otherwise to the same-named module-level global variable
of the supervisor script — globals expose GUILD_ID, TOKEN,
AUTHORIZED_LIST and CHECK_INTERVAL from the configuration but not
arbitrary configuration fields — and otherwise passes through as the
literal token string; whenever the resolved value is a dict it is
encoded with single-line json.dumps before being appended. -/
theorem C9_amended (project cfg : Doc) (tok : String) :
    (∀ j, jlookup project tok = some j →
      resolveEncoded project (moduleGlobals cfg) tok = encodeIfDict (.json j)) ∧
    (jlookup project tok = none → tok = "GUILD_ID" →
      resolveEncoded project (moduleGlobals cfg) tok
        = encodeIfDict (((jlookup cfg "GUILD_ID").map GVal.json).getD (.json (.str tok)))) ∧
    (jlookup project tok = none → moduleGlobals cfg tok = none →
      resolveEncoded project (moduleGlobals cfg) tok = .json (.str tok)) ∧
    (∀ kvs, resolveArgToken project (moduleGlobals cfg) tok = .json (.obj kvs) →
      resolveEncoded project (moduleGlobals cfg) tok
        = .json (.str (jsonDumps (.obj kvs)))) := by
  refine ⟨?_, ?_, ?_, ?_⟩
  · intro j hj
    simp [resolveEncoded, resolveArgToken, hj]
  · intro hnone htok
    subst htok
    simp [resolveEncoded, resolveArgToken, hnone, moduleGlobals]
  · intro hnone hg
    simp [resolveEncoded, resolveArgToken, hnone, hg, encodeIfDict]
  · intro kvs hres
    simp [resolveEncoded, hres, encodeIfDict]

/-- Claim C9 witness: on sampleDoc, a project-local field wins, the
GUILD_ID token reaches the configuration value through the module
globals, an unknown token passes through literally, and a dict value is
JSON-encoded. -/
theorem C9_witness :
    resolveEncoded bareProject (moduleGlobals sampleDoc) "local_path"
      = encodeIfDict (.json (.str "worker.py")) ∧
    resolveEncoded bareProject (moduleGlobals sampleDoc) "GUILD_ID"
      = encodeIfDict (((jlookup sampleDoc "GUILD_ID").map GVal.json).getD
          (.json (.str "GUILD_ID"))) ∧
    resolveEncoded bareProject (moduleGlobals sampleDoc) "NOPE"
      = .json (.str "NOPE") :=
  ⟨(C9_amended bareProject sampleDoc "local_path").1 (.str "worker.py") rfl,
   (C9_amended bareProject sampleDoc "GUILD_ID").2.1 rfl rfl,
   (C9_amended bareProject sampleDoc "NOPE").2.2.1 rfl rfl⟩

/-- Claim C2 counterexample: two rapid reboot (restartOne) invocations
for the same slot leave two concurrently live processes whose command
lines reference the launch target of that slot. -/
theorem C2_counterexample :
    ((reboot_command [workerProject] "worker"
        (reboot_command [workerProject] "worker" [supervisorProc] 100 0).1 101 0).1.filter
      (procMatches (basename workerProject.local_path))).length = 2 := by rfl

/-- Claim C2 (amended): the reboot command performs no duplicate scan,
no stale-handle termination, no lock and no cooldown — for a known
project name it appends exactly one new process for the launch target
and leaves every already-running process alive, so rapid repeated calls
accumulate concurrently live processes for the same slot. -/
theorem C2_amended (projects : List Project) (slotName : String) (table : List Proc)
    (newPid now : Nat) (p : Project)
    (hfind : projects.find? (fun q => q.name == slotName) = some p) :
    reboot_command projects slotName table newPid now
      = (table ++ [⟨newPid, spawnArgs p⟩], [Ev.spawn (spawnArgs p) now], true) := by
  have hmem : p ∈ projects := List.mem_of_find?_eq_some hfind
  have hpn := List.find?_some hfind
  have heq : p.name = slotName := by simpa using hpn
  have hcontains : (projects.map Project.name).contains slotName = true := by
    apply List.elem_iff.mpr
    exact heq ▸ List.mem_map_of_mem Project.name hmem
  simp only [reboot_command, hcontains, if_true, hfind]

/-- Claim C2 witness: one reboot call appends one worker process beside
the untouched supervisor process. -/
theorem C2_witness :
    reboot_command [workerProject] "worker" [supervisorProc] 100 0
      = ([supervisorProc, ⟨100, spawnArgs workerProject⟩],
         [Ev.spawn (spawnArgs workerProject) 0], true) :=
  C2_amended [workerProject] "worker" [supervisorProc] 100 0 workerProject rfl

/-- The slot-handling clock never moves backwards. -/
theorem handleSlot_now_ge (selfPid newPid : Nat) (p : Project) (s : Slot)
    (table : List Proc) (now : Nat) :
    now ≤ (handleSlot selfPid newPid p s table now).now := by
  unfold handleSlot
  by_cases hd : slotDead table s
  · by_cases hc : now - s.lastRestart < RESTART_COOLDOWN
    · simp [hd, hc]
    · simp [hd, hc]
  · simp [hd]

/-- Every timed event of one slot handling happens at or after the time
the handling starts. -/
theorem handleSlot_spawn_ge (selfPid newPid : Nat) (p : Project) (s : Slot)
    (table : List Proc) (now : Nat) :
    ∀ e ∈ (handleSlot selfPid newPid p s table now).evs,
      ∀ t, evTime e = some t → now ≤ t := by
  unfold handleSlot
  by_cases hd : slotDead table s
  · by_cases hc : now - s.lastRestart < RESTART_COOLDOWN <;>
      cases hh : s.handle <;>
        · intro e he t ht
          cases e with
          | wait w => simp [evTime] at ht
          | killScan q => simp [evTime] at ht
          | termStale q => simp [evTime] at ht
          | spawn args tt =>
            simp only [evTime, Option.some.injEq] at ht
            subst ht
            simp [hd, hc, hh] at he
            obtain ⟨-, h2⟩ := he
            omega
  · intro e he
    simp [hd] at he

/-- Every spawn recorded during the remainder of a poll cycle happens at
or after the time the remainder starts: the shared clock only advances. -/
theorem monitorCycle_spawn_ge (selfPid : Nat) :
    ∀ (items : List (Project × Slot × Nat)) (table : List Proc) (now : Nat),
      ∀ e ∈ (monitorCycle selfPid items table now).evs,
        ∀ t, evTime e = some t → now ≤ t := by
  intro items
  induction items with
  | nil =>
    intro table now e he
    simp [monitorCycle] at he
  | cons item rest ih =>
    intro table now e he t ht
    obtain ⟨p, s, pid⟩ := item
    simp only [monitorCycle, List.mem_append] at he
    rcases he with h1 | h2
    · exact handleSlot_spawn_ge _ _ _ _ _ _ e h1 t ht
    · exact le_trans (handleSlot_now_ge selfPid pid p s table now) (ih _ _ e h2 t ht)

/-- The reboot command emits either nothing or one immediate spawn. -/
theorem reboot_evs (projects : List Project) (slotName : String) (table : List Proc)
    (pid t : Nat) :
    (reboot_command projects slotName table pid t).2.1 = [] ∨
    ∃ p, (reboot_command projects slotName table pid t).2.1 = [Ev.spawn (spawnArgs p) t] := by
  unfold reboot_command
  by_cases hc : (projects.map Project.name).contains slotName
  · simp only [hc, if_true]
    cases hf : projects.find? (fun q => q.name == slotName) with
    | none => left; rfl
    | some p => right; exact ⟨p, rfl⟩
  · left
    rw [if_neg hc]

/-- Claim C7: a dead slot inside the cooldown window is only respawned
after the remaining delta is waited out — the handling clock advances to
lastRestart + RESTART_COOLDOWN, the wait event for exactly the remaining
delta is emitted, the spawn is the final event and is stamped at that
time, which also becomes the new lastRestart; the wait is synchronous in
the shared loop, so every spawn in the rest of the same cycle happens no
earlier; and the reboot command (restartOne) never waits — its only
event is a spawn stamped at the invocation time itself. -/
theorem C7_cooldown (selfPid newPid : Nat) (p : Project) (s : Slot)
    (table : List Proc) (now : Nat)
    (hdead : slotDead table s = true)
    (hle : s.lastRestart ≤ now)
    (hcool : now < s.lastRestart + RESTART_COOLDOWN) :
    (handleSlot selfPid newPid p s table now).now = s.lastRestart + RESTART_COOLDOWN ∧
    Ev.wait (RESTART_COOLDOWN - (now - s.lastRestart))
      ∈ (handleSlot selfPid newPid p s table now).evs ∧
    (handleSlot selfPid newPid p s table now).evs.getLast?
      = some (.spawn (spawnArgs p) (handleSlot selfPid newPid p s table now).now) ∧
    (handleSlot selfPid newPid p s table now).slot.lastRestart
      = (handleSlot selfPid newPid p s table now).now ∧
    (∀ items table2 e,
      e ∈ (monitorCycle selfPid items table2 (handleSlot selfPid newPid p s table now).now).evs →
      ∀ t, evTime e = some t → s.lastRestart + RESTART_COOLDOWN ≤ t) ∧
    (∀ projects slotName table3 pid2 t3,
      ((reboot_command projects slotName table3 pid2 t3).2.1.all (fun e => ! isWait e)) ∧
      ∀ e ∈ (reboot_command projects slotName table3 pid2 t3).2.1,
        ∀ t, evTime e = some t → t = t3) := by
  have hc : now - s.lastRestart < RESTART_COOLDOWN := by omega
  have hnow : (handleSlot selfPid newPid p s table now).now
      = s.lastRestart + RESTART_COOLDOWN := by
    unfold handleSlot
    simp [hdead, hc]
    omega
  refine ⟨hnow, ?_, ?_, ?_, ?_, ?_⟩
  · unfold handleSlot
    cases hh : s.handle <;> simp [hdead, hc, hh]
  · unfold handleSlot
    cases hh : s.handle <;> simp [hdead, hc, hh]
  · unfold handleSlot
    cases hh : s.handle <;> simp [hdead, hc, hh]
  · intro items table2 e he t ht
    have := monitorCycle_spawn_ge selfPid items table2
      (handleSlot selfPid newPid p s table now).now e he t ht
    omega
  · intro projects slotName table3 pid2 t3
    rcases reboot_evs projects slotName table3 pid2 t3 with hz | ⟨q, hq⟩
    · rw [hz]
      exact ⟨rfl, by simp⟩
    · rw [hq]
      constructor
      · rfl
      · intro e he t ht
        simp only [List.mem_singleton] at he
        subst he
        simp only [evTime, Option.some.injEq] at ht
        omega

/-- Claim C7 witness: a dead slot last restarted at time 0 and handled
at time 10 is respawned only at time 30. -/
theorem C7_witness :
    (handleSlot 1 2 workerProject ⟨none, 0⟩ [] 10).now = 0 + RESTART_COOLDOWN :=
  (C7_cooldown 1 2 workerProject ⟨none, 0⟩ [] 10 rfl (by decide) (by decide)).1

/-- No process that survives the duplicate scan still matches the
script, apart from the supervisor process itself. -/
theorem kill_existing_no_match (selfPid : Nat) (path : String) (table : List Proc) :
    ∀ pr ∈ kill_existing_process selfPid path table,
      ¬ ((pr.pid != selfPid && procMatches (basename path) pr) = true) := by
  intro pr hpr hand
  unfold kill_existing_process at hpr
  have hq := (List.mem_filter.mp hpr).2
  rw [Bool.and_eq_true] at hand
  obtain ⟨hne, hm⟩ := hand
  rw [Bool.or_eq_true] at hq
  rcases hq with he | hnm
  · rw [bne_iff_ne] at hne
    exact hne (by simpa using he)
  · rw [hm] at hnm
    simp at hnm

/-- The freshly spawned process matches its own launch target. -/
theorem spawned_matches (newPid : Nat) (p : Project) :
    procMatches (basename p.local_path) ⟨newPid, spawnArgs p⟩ = true := by
  have h := strContains_basename p.local_path
  simp [procMatches, spawnArgs, h]

/-- Claim C8: within one dead-slot handling, the duplicate scan and the
stale-handle termination complete before the spawn — the spawn is the
unique spawn event and comes last, after the kill-scan event — and in
the resulting process table exactly one process other than the
supervisor itself references the launch target of the slot. -/
theorem C8_exactly_one (selfPid newPid : Nat) (p : Project) (s : Slot)
    (table : List Proc) (now : Nat)
    (hdead : slotDead table s = true)
    (hpid : newPid ≠ selfPid) :
    ((handleSlot selfPid newPid p s table now).table.filter
      (fun pr => pr.pid != selfPid && procMatches (basename p.local_path) pr)).length = 1 ∧
    Ev.killScan p.local_path ∈ (handleSlot selfPid newPid p s table now).evs ∧
    (handleSlot selfPid newPid p s table now).evs.getLast?
      = some (.spawn (spawnArgs p) (handleSlot selfPid newPid p s table now).now) ∧
    ((handleSlot selfPid newPid p s table now).evs.filter isSpawn).length = 1 := by
  have hqnew : (fun pr : Proc => pr.pid != selfPid && procMatches (basename p.local_path) pr)
      ⟨newPid, spawnArgs p⟩ = true := by
    simp [spawned_matches, hpid]
  refine ⟨?_, ?_, ?_, ?_⟩
  · unfold handleSlot
    cases hh : s.handle with
    | none =>
      simp only [hdead, if_true]
      rw [List.filter_append]
      have hnil : (kill_existing_process selfPid p.local_path table).filter
          (fun pr => pr.pid != selfPid && procMatches (basename p.local_path) pr) = [] :=
        List.filter_eq_nil_iff.mpr (kill_existing_no_match selfPid p.local_path table)
      simp [hh, hnil, hqnew]
    | some stale =>
      simp only [hdead, if_true]
      rw [List.filter_append]
      have hnil : ((kill_existing_process selfPid p.local_path table).filter
            (fun pr => pr.pid != stale)).filter
          (fun pr => pr.pid != selfPid && procMatches (basename p.local_path) pr) = [] := by
        apply List.filter_eq_nil_iff.mpr
        intro pr hpr
        exact kill_existing_no_match selfPid p.local_path table pr (List.mem_filter.mp hpr).1
      simp [hh, hnil, hqnew]
  · unfold handleSlot
    by_cases hc : now - s.lastRestart < RESTART_COOLDOWN <;>
      cases hh : s.handle <;> simp [hdead, hc, hh]
  · unfold handleSlot
    by_cases hc : now - s.lastRestart < RESTART_COOLDOWN <;>
      cases hh : s.handle <;> simp [hdead, hc, hh]
  · unfold handleSlot
    by_cases hc : now - s.lastRestart < RESTART_COOLDOWN <;>
      cases hh : s.handle <;> simp [hdead, hc, hh, isSpawn]

/-- Claim C8 witness: handling the dead worker slot beside the
supervisor process leaves exactly one matching process. -/
theorem C8_witness :
    ((handleSlot 1 2 workerProject ⟨none, 0⟩ [supervisorProc] 40).table.filter
      (fun pr => pr.pid != 1 && procMatches (basename workerProject.local_path) pr)).length
      = 1 :=
  (C8_exactly_one 1 2 workerProject ⟨none, 0⟩ [supervisorProc] 40 rfl (by decide)).1

end AutoMonitor
